import Mathlib

/-!
Verification of the MyComposerPage web application (`src/app.py`).

The application is a small Flask app over a single-file SQLite database.
We embed its data model (tables Instrumentation, Instrument, HasInstrument,
Piece), the constraint-checked inserts performed by the `/resetdb` seed path,
the debug-report queries it writes to `debug.txt`, and the route handlers.
Machine `INTEGER` columns are modelled as `Int`/`Nat` (row ids), the `REAL`
column `difficulty_rating` as `Rat`; fallible SQL statements return
`Except SqlError`.
-/

/-- A row of the Instrumentation table: `{id, name (unique)}`. -/
structure InstrumentationRow where
  id : Nat
  name : String
deriving Repr, DecidableEq

/-- A row of the Instrument table: `{id, name (unique)}`. -/
structure InstrumentRow where
  id : Nat
  name : String
deriving Repr, DecidableEq

/-- A row of the HasInstrument associative table. -/
structure HasInstrumentRow where
  instrumentation_id : Nat
  instrument_id : Nat
  instrument_count : Int
deriving Repr, DecidableEq

/-- A row of the Piece table. `instrumentation` is a nullable foreign key;
`duration_seconds` and `year_of_composition` are nullable integers;
`difficulty_rating` is the REAL column, modelled as a rational. -/
structure PieceRow where
  id : Nat
  name : String
  instrumentation : Option Nat
  duration_seconds : Option Int
  year_of_composition : Option Int
  difficulty_rating : Rat
deriving Repr, DecidableEq

/-- A table declaration: its name and the tables its foreign keys target. -/
structure TableDef where
  name : String
  fkTargets : List String
deriving Repr, DecidableEq

/-- The database state: the declared tables (in creation order) and the rows
of each of the four tables (in insertion order; ids are assigned by
AUTOINCREMENT starting at 1). -/
structure Database where
  tables : List TableDef
  instrumentations : List InstrumentationRow
  instruments : List InstrumentRow
  hasInstruments : List HasInstrumentRow
  pieces : List PieceRow
deriving Repr, DecidableEq

def Database.empty : Database := ⟨[], [], [], [], []⟩

/-- Errors raised by the database engine for constraint violations. -/
inductive SqlError where
  | uniqueViolation (table column : String)
  | checkViolation (constraint : String)
  | fkViolation
deriving Repr, DecidableEq

def SqlError.message : SqlError → String
  | .uniqueViolation t c => "UNIQUE constraint failed: " ++ t ++ "." ++ c
  | .checkViolation c => "CHECK constraint failed: " ++ c
  | .fkViolation => "FOREIGN KEY constraint failed"

/-- The table declarations of `app.py` lines 51-89, in the order the four
`CREATE TABLE` statements execute. -/
def instrumentationTable : TableDef := ⟨"Instrumentation", []⟩

def instrumentTable : TableDef := ⟨"Instrument", []⟩

def hasInstrumentTable : TableDef := ⟨"HasInstrument", ["Instrumentation", "Instrument"]⟩

def pieceTable : TableDef := ⟨"Piece", ["Instrumentation"]⟩

/-- Execute one `CREATE TABLE` statement. -/
def createTable (db : Database) (t : TableDef) : Database :=
  { db with tables := db.tables ++ [t] }

/-- Checks that every table's foreign keys target tables created strictly
earlier in the list; `seen` accumulates the names already created. -/
def fkOrderOkFrom (seen : List String) : List TableDef → Bool
  | [] => true
  | t :: ts => t.fkTargets.all (fun n => seen.contains n) && fkOrderOkFrom (seen ++ [t.name]) ts

def fkOrderOk (ts : List TableDef) : Bool := fkOrderOkFrom [] ts

/-- The discrete set allowed by the CHECK constraint on
`Piece.difficulty_rating` (`app.py` line 86). -/
def allowedDifficulties : List Rat :=
  [mkRat 1 2, 1, mkRat 3 2, 2, mkRat 5 2, 3, mkRat 7 2, 4, mkRat 9 2, 5, mkRat 11 2, 6]

/-- `INSERT INTO Instrumentation (name) VALUES (?)`: enforces the UNIQUE
constraint on `name` and assigns the next AUTOINCREMENT id. -/
def insertInstrumentation (db : Database) (name : String) : Except SqlError Database :=
  if db.instrumentations.any (fun r => r.name == name) then
    .error (.uniqueViolation "Instrumentation" "name")
  else
    .ok { db with instrumentations :=
            db.instrumentations ++ [⟨db.instrumentations.length + 1, name⟩] }

/-- `INSERT INTO Instrument (name) VALUES (?)`: enforces the UNIQUE
constraint on `name` and assigns the next AUTOINCREMENT id. -/
def insertInstrument (db : Database) (name : String) : Except SqlError Database :=
  if db.instruments.any (fun r => r.name == name) then
    .error (.uniqueViolation "Instrument" "name")
  else
    .ok { db with instruments :=
            db.instruments ++ [⟨db.instruments.length + 1, name⟩] }

/-- `INSERT INTO HasInstrument ... VALUES (?, ?, ?)`: enforces the
`instrument_count >= 0` CHECK, the composite primary key, and the two
foreign keys (PRAGMA foreign_keys is ON). -/
def insertHasInstrument (db : Database) (iid instId : Nat) (count : Int) :
    Except SqlError Database :=
  if count < 0 then
    .error (.checkViolation "HasInstrument.instrument_count")
  else if db.hasInstruments.any
      (fun h => h.instrumentation_id == iid && h.instrument_id == instId) then
    .error (.uniqueViolation "HasInstrument" "instrumentation_id, instrument_id")
  else if db.instrumentations.any (fun r => r.id == iid)
      && db.instruments.any (fun r => r.id == instId) then
    .ok { db with hasInstruments := db.hasInstruments ++ [⟨iid, instId, count⟩] }
  else
    .error .fkViolation

/-- `INSERT INTO Piece ... VALUES (?, ?, ?, ?, ?)`: enforces the CHECK
constraint on `difficulty_rating` (checked per-row, before the deferred
foreign-key check) and the nullable foreign key to Instrumentation. -/
def insertPiece (db : Database) (name : String) (instr : Option Nat)
    (dur year : Option Int) (rating : Rat) : Except SqlError Database :=
  if rating ∈ allowedDifficulties then
    match instr with
    | some iid =>
        if db.instrumentations.any (fun r => r.id == iid) then
          .ok { db with pieces :=
                  db.pieces ++ [⟨db.pieces.length + 1, name, some iid, dur, year, rating⟩] }
        else
          .error .fkViolation
    | none =>
        .ok { db with pieces :=
                db.pieces ++ [⟨db.pieces.length + 1, name, none, dur, year, rating⟩] }
  else
    .error (.checkViolation "Piece.difficulty_rating")

/-- The schema rebuild and seeding performed inside the `try` block of
`resetdb` (`app.py` lines 46-123): four `CREATE TABLE` statements in order,
then the example inserts, each of which can raise a constraint error. -/
def seedDatabase : Except SqlError Database := do
  let db := Database.empty
  let db := createTable db instrumentationTable
  let db := createTable db instrumentTable
  let db := createTable db hasInstrumentTable
  let db := createTable db pieceTable
  let db ← insertInstrumentation db "Solo Flute"
  let db ← insertInstrumentation db "String Quartet"
  let db ← insertInstrument db "Flute"
  let db ← insertInstrument db "Violin"
  let db ← insertInstrument db "Viola"
  let db ← insertInstrument db "Cello"
  let db ← insertHasInstrument db 1 1 1
  let db ← insertHasInstrument db 2 2 2
  let db ← insertHasInstrument db 2 3 1
  let db ← insertHasInstrument db 2 4 1
  let db ← insertPiece db "Meditation for Flute" (some 1) (some 210) (some 2018) (mkRat 7 2)
  let db ← insertPiece db "Quartet in A" (some 2) (some 1260) (some 1799) 4
  let db ← insertPiece db "Beginner Etude" (some 1) (some 90) (some 2021) (mkRat 1 2)
  let db ← insertPiece db "Advanced Sonata" none (some 1800) (some 2005) 6
  pure db

/-- The database produced by a fully successful seed path. -/
def seededDb : Database :=
  match seedDatabase with
  | .ok db => db
  | .error _ => Database.empty

/-- Insertion of an element into a list already sorted by a `Nat` key. -/
def insertByKey (key : α → Nat) (x : α) : List α → List α
  | [] => [x]
  | y :: ys => if key x ≤ key y then x :: y :: ys else y :: insertByKey key x ys

/-- Insertion sort by a `Nat` key: models SQL `ORDER BY id`. -/
def sortByKey (key : α → Nat) : List α → List α
  | [] => []
  | x :: xs => insertByKey key x (sortByKey key xs)

/-- Insertion of a rational into a sorted list of rationals. -/
def insertRat (q : Rat) : List Rat → List Rat
  | [] => [q]
  | r :: rs => if q ≤ r then q :: r :: rs else r :: insertRat q rs

/-- Insertion sort on rationals: models SQL `ORDER BY difficulty_rating`. -/
def sortRats : List Rat → List Rat
  | [] => []
  | q :: qs => insertRat q (sortRats qs)

/-- Query 2 of the debug report (`app.py` lines 133-142):
`SELECT p.name, i.name FROM Piece p LEFT JOIN Instrumentation i ON
p.instrumentation = i.id ORDER BY p.id`, with a NULL instrumentation name
rendered as the string NULL. -/
def piecesWithInstrumentationNames (db : Database) : List (String × String) :=
  (sortByKey PieceRow.id db.pieces).map fun p =>
    (p.name,
      match p.instrumentation.bind
          (fun iid => db.instrumentations.find? (fun r => r.id == iid)) with
      | some r => r.name
      | none => "NULL")

/-- Query 3 of the debug report (`app.py` lines 145-154): per
instrumentation (grouped and ordered by its id), the number of associated
HasInstrument rows and the sum of their counts (`SUM` over an empty group
is SQL NULL, hence the `Option`). -/
def instrumentationAggregates (db : Database) : List (String × Nat × Option Int) :=
  (sortByKey InstrumentationRow.id db.instrumentations).map fun ins =>
    let ms := db.hasInstruments.filter (fun h => h.instrumentation_id == ins.id)
    (ins.name, ms.length,
      if ms.isEmpty then none
      else some (ms.foldl (fun a h => a + h.instrument_count) 0))

/-- Query 4 of the debug report (`app.py` lines 157-165): piece counts
grouped by `difficulty_rating`, ordered by the rating. -/
def piecesByDifficulty (db : Database) : List (Rat × Nat) :=
  (sortRats ((db.pieces.map PieceRow.difficulty_rating).dedup)).map fun q =>
    (q, (db.pieces.filter (fun p => p.difficulty_rating == q)).length)

/-- Query 5 of the debug report (`app.py` lines 168-174): the instruments
and counts of the instrumentation named String Quartet, via the two inner
joins, in HasInstrument row order. -/
def stringQuartetInstruments (db : Database) : List (String × Int) :=
  db.hasInstruments.filterMap fun h =>
    if db.instrumentations.any
        (fun r => r.id == h.instrumentation_id && r.name == "String Quartet") then
      (db.instruments.find? (fun r => r.id == h.instrument_id)).map
        (fun r => (r.name, h.instrument_count))
    else
      none

/-- The contents `resetdb` writes to `debug.txt` (`app.py` lines 126-181):
the results of the five test queries. -/
structure DebugReport where
  totalPieces : Nat
  pieceListing : List (String × String)
  aggregates : List (String × Nat × Option Int)
  byDifficulty : List (Rat × Nat)
  quartetInstruments : List (String × Int)
deriving Repr, DecidableEq

def debugReport (db : Database) : DebugReport :=
  { totalPieces := db.pieces.length
    pieceListing := piecesWithInstrumentationNames db
    aggregates := instrumentationAggregates db
    byDifficulty := piecesByDifficulty db
    quartetInstruments := stringQuartetInstruments db }

/-- An exception raised inside the `try` block of `resetdb`: either
`get_db_connection` itself raises (no connection is ever opened), or a later
statement or the `debug.txt` write raises after the connection was opened.
The string is the exception message interpolated into the 500 body. -/
inductive BuildFailure where
  | onConnect (msg : String)
  | afterConnect (msg : String)
deriving Repr, DecidableEq

/-- The environment a `GET /resetdb` request executes in: the current
database file (if any), the current `debug.txt` (if any), whether
`os.remove` raises `OSError`, and whether some step of the `try` block
raises. -/
structure Env where
  dbFile : Option Database
  debugFile : Option DebugReport
  removeRaises : Bool
  buildFailure : Option BuildFailure
deriving Repr, DecidableEq

/-- An HTTP response of the app: `redirect(url_for(..))` or an
`(body, status)` error tuple. -/
inductive HttpResponse where
  | redirect (location : String)
  | serverError (status : Nat) (body : String)
deriving Repr, DecidableEq

/-- The outcome of one `GET /resetdb` request: a 500 because the existing
database file could not be removed (before any connection is opened); a 500
because the `try` block raised (recording whether the connection had been
opened, since the handler only closes it after the `try` body completes); or
full success with the seeded database and the report written to
`debug.txt`. -/
inductive ResetResult where
  | removeError
  | buildError (connOpened : Bool) (msg : String)
  | success (db : Database) (report : DebugReport)
deriving Repr, DecidableEq

/-- The `resetdb` route handler (`app.py` lines 32-187). -/
def resetdb (env : Env) : ResetResult :=
  if env.dbFile.isSome && env.removeRaises then
    .removeError
  else
    match env.buildFailure with
    | some (.onConnect m) => .buildError false m
    | some (.afterConnect m) => .buildError true m
    | none =>
        match seedDatabase with
        | .error e => .buildError true e.message
        | .ok db => .success db (debugReport db)

def ResetResult.response : ResetResult → HttpResponse
  | .removeError => .serverError 500 "Failed to remove existing database file."
  | .buildError _ m => .serverError 500 ("Failed to (re)build database schema: " ++ m)
  | .success _ _ => .redirect "/"

def ResetResult.connOpened : ResetResult → Bool
  | .removeError => false
  | .buildError o _ => o
  | .success _ _ => true

def ResetResult.connClosed : ResetResult → Bool
  | .removeError => false
  | .buildError _ _ => false
  | .success _ _ => true

/-- The database file and `debug.txt` after a request, given the state
before it: on full success the seeded database replaces the file and the
report overwrites `debug.txt` (mode w) regardless of their prior contents;
the failure branches leave an unspecified partial state we make no claims
about, so we only define the success case and keep the prior state
otherwise. -/
def fsAfter (env : Env) : Option Database × Option DebugReport :=
  match resetdb env with
  | .success db r => (some db, some r)
  | _ => (env.dbFile, env.debugFile)

/-- The keyword arguments a route handler passes to `render_template`,
together with the template name: every handler passes `current_year`, and a
handler that presented piece data would pass it here (`pieces` is `none`
when no piece data is passed). -/
structure RenderedPage where
  template : String
  current_year : Int
  pieces : Option (List (String × Option Int × Rat))
deriving Repr, DecidableEq

/-- `GET /` (`app.py` lines 16-18). -/
def home (year : Int) : RenderedPage := ⟨"index.html", year, none⟩

/-- `GET /about` (`app.py` lines 20-22). -/
def about (year : Int) : RenderedPage := ⟨"about.html", year, none⟩

/-- `GET /works` (`app.py` lines 24-26). -/
def works (year : Int) : RenderedPage := ⟨"index.html", year, none⟩

/-- `GET /contacts` (`app.py` lines 28-30). -/
def contacts (year : Int) : RenderedPage := ⟨"index.html", year, none⟩

/-- One entry returned by `get_piece_list`. -/
structure PieceListing where
  name : String
  year_of_composition : Option Int
  difficulty_rating : Rat
deriving Repr, DecidableEq

/-- Modelled from the spec: the read helper `get_piece_list` named in
spec sections 4.3 and 8 is not present in `src/app.py` (the file defines
only the route handlers), so it is modelled from the spec words: it returns
`{name, year_of_composition, difficulty_rating}` for every Piece row
ordered by creation id, and the empty sequence when the database file does
not exist. -/
def get_piece_list (dbFile : Option Database) : List PieceListing :=
  match dbFile with
  | none => []
  | some db =>
      (sortByKey PieceRow.id db.pieces).map
        (fun p => ⟨p.name, p.year_of_composition, p.difficulty_rating⟩)

/-- Modelled from the spec: the seed helper `add_instrument` named in spec
sections 4.2 and 8 is not present in `src/app.py`, so it is modelled from
the spec words: it inserts one Instrument row and returns a failure value
(`false`, with the database unchanged) instead of raising when the name
violates the uniqueness constraint. -/
def add_instrument (name : String) (db : Database) : Bool × Database :=
  match insertInstrument db name with
  | .ok db2 => (true, db2)
  | .error _ => (false, db)

/-- Referential integrity of a database state: every non-null
`Piece.instrumentation` references an existing Instrumentation row, and
every HasInstrument row references an existing Instrumentation row and an
existing Instrument row. -/
def referentialIntegrity (db : Database) : Bool :=
  db.pieces.all (fun p =>
    match p.instrumentation with
    | none => true
    | some iid => db.instrumentations.any (fun r => r.id == iid)) &&
  db.hasInstruments.all (fun h =>
    db.instrumentations.any (fun r => r.id == h.instrumentation_id) &&
    db.instruments.any (fun r => r.id == h.instrument_id))

/-! ## Helper lemmas -/

theorem seedDatabase_eq : seedDatabase = Except.ok seededDb := rfl

theorem resetdb_success_elim (env : Env) (db : Database) (r : DebugReport)
    (h : resetdb env = .success db r) :
    db = seededDb ∧ r = debugReport seededDb := by
  unfold resetdb at h
  split at h
  · exact absurd h (by simp)
  · split at h
    · exact absurd h (by simp)
    · exact absurd h (by simp)
    · rw [seedDatabase_eq] at h
      simp only [ResetResult.success.injEq] at h
      exact ⟨h.1.symm, h.2.symm⟩

theorem insertByKey_perm (key : α → Nat) (x : α) (l : List α) :
    (insertByKey key x l).Perm (x :: l) := by
  induction l with
  | nil => exact List.Perm.refl _
  | cons y ys ih =>
      unfold insertByKey
      split
      · exact List.Perm.refl _
      · exact (ih.cons y).trans (List.Perm.swap x y ys)

theorem sortByKey_perm (key : α → Nat) (l : List α) : (sortByKey key l).Perm l := by
  induction l with
  | nil => exact List.Perm.refl _
  | cons x xs ih =>
      unfold sortByKey
      exact (insertByKey_perm key x (sortByKey key xs)).trans (ih.cons x)

theorem sorted_insertByKey (key : α → Nat) (x : α) (l : List α)
    (h : List.Sorted (fun a b => key a ≤ key b) l) :
    List.Sorted (fun a b => key a ≤ key b) (insertByKey key x l) := by
  induction l with
  | nil => simp [insertByKey]
  | cons y ys ih =>
      rw [List.sorted_cons] at h
      unfold insertByKey
      split
      · rename_i hxy
        rw [List.sorted_cons]
        refine ⟨?_, List.sorted_cons.mpr h⟩
        intro b hb
        rcases List.mem_cons.mp hb with hb | hb
        · exact hb ▸ hxy
        · exact Nat.le_trans hxy (h.1 b hb)
      · rename_i hxy
        rw [List.sorted_cons]
        refine ⟨?_, ih h.2⟩
        intro b hb
        have hb2 : b ∈ x :: ys := (insertByKey_perm key x ys).mem_iff.mp hb
        rcases List.mem_cons.mp hb2 with hb2 | hb2
        · exact hb2 ▸ Nat.le_of_not_le hxy
        · exact h.1 b hb2

theorem sorted_sortByKey (key : α → Nat) (l : List α) :
    List.Sorted (fun a b => key a ≤ key b) (sortByKey key l) := by
  induction l with
  | nil => simp [sortByKey]
  | cons x xs ih => exact sorted_insertByKey key x (sortByKey key xs) ih

/-! ## Claim theorems -/

/-- Claim C1: after a successful GET /resetdb, the Piece table holds exactly
the four seeded rows, named Meditation for Flute, Quartet in A, Beginner
Etude and Advanced Sonata. -/
theorem resetdb_piece_count (env : Env) (db : Database) (r : DebugReport)
    (h : resetdb env = .success db r) :
    db.pieces.length = 4 ∧
      db.pieces.map PieceRow.name =
        ["Meditation for Flute", "Quartet in A", "Beginner Etude", "Advanced Sonata"] := by
  obtain ⟨hdb, -⟩ := resetdb_success_elim env db r h
  subst hdb
  exact ⟨by decide, by decide⟩

/-- Witness for C1 at a concrete environment with no prior database file. -/
theorem resetdb_piece_count_witness :
    seededDb.pieces.length = 4 ∧
      seededDb.pieces.map PieceRow.name =
        ["Meditation for Flute", "Quartet in A", "Beginner Etude", "Advanced Sonata"] :=
  resetdb_piece_count ⟨none, none, false, none⟩ seededDb (debugReport seededDb) (by decide)

/-- Claim C2: whenever the file removal does not fail and no step raises,
GET /resetdb succeeds independently of the prior database file (the file is
dropped), creates exactly the four tables in the dependency order
Instrumentation, Instrument, HasInstrument, Piece (every foreign key
targets an already-created table), seeds the demo data, and responds with a
redirect to the home route. -/
theorem resetdb_rebuild_spec (env : Env)
    (hrm : ¬(env.dbFile.isSome = true ∧ env.removeRaises = true))
    (hbf : env.buildFailure = none) :
    resetdb env = .success seededDb (debugReport seededDb) ∧
    (resetdb env).response = .redirect "/" ∧
    seededDb.tables.map TableDef.name =
      ["Instrumentation", "Instrument", "HasInstrument", "Piece"] ∧
    fkOrderOk seededDb.tables = true ∧
    fsAfter env = (some seededDb, some (debugReport seededDb)) := by
  have hc : (env.dbFile.isSome && env.removeRaises) ≠ true := by
    intro hcc
    exact hrm (by simpa using hcc)
  have hmain : resetdb env = .success seededDb (debugReport seededDb) := by
    unfold resetdb
    rw [if_neg hc, hbf, seedDatabase_eq]
  refine ⟨hmain, ?_, by decide, by decide, ?_⟩
  · rw [hmain]
    rfl
  · unfold fsAfter
    rw [hmain]

/-- Witness for C2 at a concrete environment that does hold a prior
database file, which the rebuild discards. -/
theorem resetdb_rebuild_spec_witness :
    resetdb ⟨some Database.empty, none, false, none⟩ =
      .success seededDb (debugReport seededDb) ∧
    (resetdb ⟨some Database.empty, none, false, none⟩).response = .redirect "/" ∧
    seededDb.tables.map TableDef.name =
      ["Instrumentation", "Instrument", "HasInstrument", "Piece"] ∧
    fkOrderOk seededDb.tables = true ∧
    fsAfter ⟨some Database.empty, none, false, none⟩ =
      (some seededDb, some (debugReport seededDb)) :=
  resetdb_rebuild_spec ⟨some Database.empty, none, false, none⟩ (by decide) rfl

/-- Claim C3: in the database produced by the reset/seed path, every Piece
row with a non-null instrumentation references an existing Instrumentation
row, and every HasInstrument row references an existing Instrument row and
an existing Instrumentation row. -/
theorem resetdb_referential_integrity (env : Env) (db : Database) (r : DebugReport)
    (h : resetdb env = .success db r) : referentialIntegrity db = true := by
  obtain ⟨hdb, -⟩ := resetdb_success_elim env db r h
  subst hdb
  decide

/-- Witness for C3 at a concrete environment (removal would fail, but no
file exists, so the build proceeds). -/
theorem resetdb_referential_integrity_witness :
    referentialIntegrity seededDb = true :=
  resetdb_referential_integrity ⟨none, none, true, none⟩ seededDb
    (debugReport seededDb) (by decide)

/-- Claim C4: an insert into Piece whose difficulty_rating is outside the
discrete set allowed by the CHECK constraint is rejected with the CHECK
violation and stores no row, while a rating inside the set is never
rejected by this constraint. -/
theorem insertPiece_difficulty_check (db : Database) (name : String)
    (instr : Option Nat) (dur year : Option Int) (rating : Rat) :
    (rating ∉ allowedDifficulties →
      insertPiece db name instr dur year rating =
        .error (.checkViolation "Piece.difficulty_rating") ∧
      ∀ db2, insertPiece db name instr dur year rating ≠ .ok db2) ∧
    (rating ∈ allowedDifficulties →
      insertPiece db name instr dur year rating ≠
        .error (.checkViolation "Piece.difficulty_rating")) := by
  constructor
  · intro hmem
    unfold insertPiece
    rw [if_neg hmem]
    exact ⟨rfl, fun db2 => by simp⟩
  · intro hmem
    unfold insertPiece
    rw [if_pos hmem]
    cases instr with
    | none => simp
    | some iid =>
        dsimp only
        split <;> simp

/-- Witness for C4: a rating of 7 is rejected by the CHECK constraint, a
rating of 4 is not. -/
theorem insertPiece_difficulty_check_witness :
    (insertPiece Database.empty "X" none none none 7 =
      .error (.checkViolation "Piece.difficulty_rating")) ∧
    (insertPiece Database.empty "X" none none none 4 ≠
      .error (.checkViolation "Piece.difficulty_rating")) :=
  ⟨((insertPiece_difficulty_check Database.empty "X" none none none 7).1 (by decide)).1,
   (insertPiece_difficulty_check Database.empty "X" none none none 4).2 (by decide)⟩

/-- Claim C5: GET /resetdb responds with the redirect exactly when the file
removal did not fail and no step of the rebuild raised; a removal failure
yields a 500 with its message, and an exception in the rebuild yields a 500
carrying the interpolated exception message. -/
theorem resetdb_error_handling (env : Env) :
    ((resetdb env).response = .redirect "/" ↔
      ¬(env.dbFile.isSome = true ∧ env.removeRaises = true) ∧
        env.buildFailure = none) ∧
    (env.dbFile.isSome = true ∧ env.removeRaises = true →
      (resetdb env).response =
        .serverError 500 "Failed to remove existing database file.") ∧
    (∀ m, ¬(env.dbFile.isSome = true ∧ env.removeRaises = true) →
      (env.buildFailure = some (.onConnect m) ∨
        env.buildFailure = some (.afterConnect m)) →
      (resetdb env).response =
        .serverError 500 ("Failed to (re)build database schema: " ++ m)) := by
  obtain ⟨dbf, dbgf, rr, bf⟩ := env
  cases dbf <;> cases rr <;> rcases bf with _ | mf <;> try rcases mf with m | m <;>
    simp [resetdb, ResetResult.response, seedDatabase_eq]
  all_goals simp [resetdb, ResetResult.response, seedDatabase_eq]

/-- Witness for C5 at three concrete environments: a locked file, a raising
rebuild step, and a fully successful run. -/
theorem resetdb_error_handling_witness :
    ((resetdb ⟨some seededDb, none, true, none⟩).response =
      .serverError 500 "Failed to remove existing database file.") ∧
    ((resetdb ⟨none, none, false, some (.afterConnect "disk I/O error")⟩).response =
      .serverError 500 "Failed to (re)build database schema: disk I/O error") ∧
    (resetdb ⟨none, none, false, none⟩).response = .redirect "/" :=
  ⟨(resetdb_error_handling ⟨some seededDb, none, true, none⟩).2.1 (by decide),
   (resetdb_error_handling ⟨none, none, false, some (.afterConnect "disk I/O error")⟩).2.2
     "disk I/O error" (by decide) (Or.inr rfl),
   (resetdb_error_handling ⟨none, none, false, none⟩).1.mpr ⟨by decide, rfl⟩⟩

/-- Claim C6: get_piece_list returns the empty sequence when no database
file exists, and otherwise one {name, year_of_composition,
difficulty_rating} entry per Piece row, ordered by creation id. -/
theorem get_piece_list_spec :
    get_piece_list none = [] ∧
    ∀ db : Database, ∃ ps : List PieceRow,
      ps.Perm db.pieces ∧
      List.Sorted (fun a b => a.id ≤ b.id) ps ∧
      get_piece_list (some db) =
        ps.map (fun p => ⟨p.name, p.year_of_composition, p.difficulty_rating⟩) :=
  ⟨rfl, fun db =>
    ⟨sortByKey PieceRow.id db.pieces, sortByKey_perm PieceRow.id db.pieces,
      sorted_sortByKey PieceRow.id db.pieces, rfl⟩⟩

/-- Claim C7: add_instrument returns a failure value with the database
unchanged when the name violates the uniqueness constraint, and otherwise
reports success and appends exactly one Instrument row with that name. -/
theorem add_instrument_spec (name : String) (db : Database) :
    ((∃ r ∈ db.instruments, r.name = name) →
      add_instrument name db = (false, db)) ∧
    (¬(∃ r ∈ db.instruments, r.name = name) →
      (add_instrument name db).1 = true ∧
      (add_instrument name db).2.instruments =
        db.instruments ++ [⟨db.instruments.length + 1, name⟩]) := by
  have hiff : (db.instruments.any (fun r => r.name == name) = true) ↔
      ∃ r ∈ db.instruments, r.name = name := by
    simp [List.any_eq_true]
  constructor
  · intro hdup
    unfold add_instrument insertInstrument
    rw [if_pos (hiff.mpr hdup)]
  · intro hnew
    unfold add_instrument insertInstrument
    rw [if_neg (fun hc => hnew (hiff.mp hc))]
    exact ⟨rfl, rfl⟩

/-- Witness for C7: inserting the duplicate name Flute into the seeded
database fails softly, inserting the fresh name Oboe succeeds. -/
theorem add_instrument_spec_witness :
    add_instrument "Flute" seededDb = (false, seededDb) ∧
    (add_instrument "Oboe" seededDb).1 = true :=
  ⟨(add_instrument_spec "Flute" seededDb).1 ⟨⟨1, "Flute"⟩, by decide, rfl⟩,
   ((add_instrument_spec "Oboe" seededDb).2 (by decide)).1⟩

/-- Claim C8 counterexample: at year 2024 the works handler passes no piece
data to the template at all, and its render is identical to the home
page's, so GET /works is a static render, not a data-listing render of the
stored pieces. -/
theorem works_no_piece_data :
    (works 2024).pieces = none ∧ works 2024 = home 2024 :=
  ⟨rfl, rfl⟩

/-- Claim C8 (amended): GET /works renders the same static template as the
home page, index.html with only the current year, and passes no piece data
to it. -/
theorem works_renders_static_index (year : Int) :
    works year = home year ∧ (works year).template = "index.html" ∧
      (works year).pieces = none :=
  ⟨rfl, rfl, rfl⟩

/-- Claim C9 counterexample: in the environment where a step of the try
block raises after the connection was opened, resetdb ends with the
connection opened but never closed. -/
theorem resetdb_conn_leak :
    (resetdb ⟨none, none, false, some (.afterConnect "disk I/O error")⟩).connOpened
      = true ∧
    (resetdb ⟨none, none, false, some (.afterConnect "disk I/O error")⟩).connClosed
      = false :=
  ⟨rfl, rfl⟩

/-- Claim C9 (amended): resetdb closes its database connection exactly on
the fully successful path; on every path where an exception is raised after
the connection was opened, the handler returns without closing it. -/
theorem resetdb_conn_discipline (env : Env) :
    ((resetdb env).connClosed = true ↔
      ∃ db r, resetdb env = .success db r) ∧
    (((resetdb env).connOpened = true ∧ (resetdb env).connClosed = false) ↔
      ∃ m, resetdb env = .buildError true m) := by
  cases h : resetdb env with
  | removeError => simp [ResetResult.connOpened, ResetResult.connClosed]
  | buildError o m => cases o <;> simp [ResetResult.connOpened, ResetResult.connClosed]
  | success db r => simp [ResetResult.connOpened, ResetResult.connClosed]

/-- Claim C10: every successful GET /resetdb also overwrites debug.txt,
whatever it held before, with the report of the five test queries: the
total piece count, the pieces joined with their instrumentation names, the
instrument aggregates per instrumentation, the piece counts grouped by
difficulty rating, and the instruments of String Quartet. -/
theorem resetdb_writes_debug_report (env : Env) (db : Database) (r : DebugReport)
    (h : resetdb env = .success db r) :
    fsAfter env = (some db, some r) ∧
    r = debugReport db ∧
    r.totalPieces = 4 ∧
    r.pieceListing = [("Meditation for Flute", "Solo Flute"),
      ("Quartet in A", "String Quartet"), ("Beginner Etude", "Solo Flute"),
      ("Advanced Sonata", "NULL")] ∧
    r.aggregates = [("Solo Flute", 1, some 1), ("String Quartet", 3, some 4)] ∧
    r.byDifficulty = [(mkRat 1 2, 1), (mkRat 7 2, 1), (4, 1), (6, 1)] ∧
    r.quartetInstruments = [("Violin", 2), ("Viola", 1), ("Cello", 1)] := by
  obtain ⟨hdb, hr⟩ := resetdb_success_elim env db r h
  subst hdb
  subst hr
  refine ⟨?_, by decide, by decide, by decide, by decide, by decide, by decide⟩
  unfold fsAfter
  rw [h]

/-- Witness for C10 at a concrete environment that already holds an old
debug.txt, which the run overwrites. -/
theorem resetdb_writes_debug_report_witness :
    fsAfter ⟨some Database.empty, some (debugReport Database.empty), false, none⟩ =
      (some seededDb, some (debugReport seededDb)) :=
  (resetdb_writes_debug_report
    ⟨some Database.empty, some (debugReport Database.empty), false, none⟩
    seededDb (debugReport seededDb) (by decide)).1
